import Mathlib

/-!
Formal model of `BasicBot`, the Binance USDT-M futures testnet REST client
in `basic_bot.py`: the quantity/price quantizer, HMAC-SHA256 request
signing, signed-request assembly, order-parameter building, request
validation, and HTTP error surfacing.  Python floats are modelled as exact
rationals and Python's builtin `round` as round-half-to-even on rationals;
Python dicts are modelled as insertion-ordered association lists.
-/

/-- Round-half-to-even on rationals, modelling Python's builtin `round`
restricted to exact values. -/
def roundHalfEven (q : ℚ) : ℤ :=
  let f := ⌊q⌋
  let r := q - f
  if r < 1 / 2 then f
  else if 1 / 2 < r then f + 1
  else if f % 2 = 0 then f else f + 1

/-- `round_step` from `place_order` (basic_bot.py lines 127-128):
`round(value / step) * step`. -/
def round_step (value step : ℚ) : ℚ :=
  (roundHalfEven (value / step) : ℚ) * step

/-- The clamp applied at lines 131 and 133:
`max(minimum, round_step(value, step))`. -/
def quantize (minimum step value : ℚ) : ℚ :=
  max minimum (round_step value step)

/-- The guarded adjustment `if quantity: quantity = max(min_qty, round_step(quantity, step_size))`
(lines 130-133): `None` and `0.0` are falsy in Python so they are left unchanged. -/
def adjust (minimum step : ℚ) : Option ℚ → Option ℚ
  | none => none
  | some v => if v = 0 then some v else some (quantize minimum step v)

theorem roundHalfEven_intCast (n : ℤ) : roundHalfEven (n : ℚ) = n := by
  simp [roundHalfEven]

theorem roundHalfEven_le_of_le {q : ℚ} {k : ℤ} (h : q ≤ (k : ℚ)) :
    roundHalfEven q ≤ k := by
  have hfk : ⌊q⌋ ≤ k := by
    have h2 := Int.floor_le_floor h
    simpa using h2
  have hq : (⌊q⌋ : ℚ) ≤ q := Int.floor_le q
  simp only [roundHalfEven]
  split_ifs with h1 h2 h3
  · exact hfk
  · have hlt : (⌊q⌋ : ℚ) < q := by
      push_neg at h1
      linarith
    have : ⌊q⌋ < k := by
      have := lt_of_lt_of_le hlt h
      exact_mod_cast this
    omega
  · exact hfk
  · have hlt : (⌊q⌋ : ℚ) < q := by
      push_neg at h1
      linarith
    have : ⌊q⌋ < k := by
      have := lt_of_lt_of_le hlt h
      exact_mod_cast this
    omega

/-- C8: `round_step` is idempotent (for any nonzero step, matching the source
where a zero step would raise `ZeroDivisionError`). -/
theorem round_step_idem (v s : ℚ) (hs : s ≠ 0) :
    round_step (round_step v s) s = round_step v s := by
  have h1 : ((roundHalfEven (v / s) : ℚ) * s) / s = ((roundHalfEven (v / s) : ℤ) : ℚ) := by
    field_simp
  simp only [round_step]
  rw [h1, roundHalfEven_intCast]

theorem round_step_idem_witness :
    round_step (round_step 5 2) 2 = round_step 5 2 :=
  round_step_idem 5 2 (by norm_num)

/-- C2 (amended): for nonzero v the adjusted value is `max(minimum, round_step(v, step))`;
when additionally the minimum is an integer multiple of a positive step, every
nonzero v ≤ minimum is clamped exactly to the minimum; and with filter
minQty = step = 0.01 the requested quantity 0.0043 is adjusted to 0.01. -/
theorem quantize_clamp :
    (∀ m s v : ℚ, v ≠ 0 → adjust m s (some v) = some (max m (round_step v s))) ∧
    (∀ (m s v : ℚ) (a : ℤ), m = (a : ℚ) * s → 0 < s → v ≤ m → v ≠ 0 →
      adjust m s (some v) = some m) ∧
    adjust (1 / 100) (1 / 100) (some (43 / 10000)) = some (1 / 100) := by
  refine ⟨?_, ?_, ?_⟩
  · intro m s v hv
    simp [adjust, hv, quantize]
  · intro m s v a hm hs hv hv0
    have hdiv : v / s ≤ (a : ℚ) := by
      rw [hm] at hv
      exact (div_le_iff₀ hs).mpr hv
    have h2 : roundHalfEven (v / s) ≤ a := roundHalfEven_le_of_le hdiv
    have step1 : round_step v s ≤ m := by
      calc round_step v s = (roundHalfEven (v / s) : ℚ) * s := rfl
        _ ≤ (a : ℚ) * s := by
            apply mul_le_mul_of_nonneg_right _ (le_of_lt hs)
            exact_mod_cast h2
        _ = m := hm.symm
    simp [adjust, hv0, quantize, max_eq_left step1]
  · norm_num [adjust, quantize, round_step, roundHalfEven]

theorem quantize_clamp_witness : adjust 2 1 (some 1) = some 2 :=
  quantize_clamp.2.1 2 1 1 2 (by norm_num) (by norm_num) (by norm_num) (by norm_num)

/-- C2 counterexample: v = 1.5 is nonzero and v ≤ minimum = 1.5, yet with
step = 1 the adjusted value is 2, not the minimum. -/
theorem quantize_clamp_cex :
    ((3 : ℚ) / 2 ≤ 3 / 2) ∧ ((3 : ℚ) / 2 ≠ 0) ∧
    adjust (3 / 2) 1 (some (3 / 2)) = some 2 ∧ ((2 : ℚ) ≠ 3 / 2) := by
  refine ⟨le_refl _, by norm_num, ?_, by norm_num⟩
  norm_num [adjust, quantize, round_step, roundHalfEven]

/-- A scalar request-parameter value: Python `str`, `int`, or `float`
(floats modelled as exact rationals). -/
inductive Value
  | str (s : String)
  | int (n : ℤ)
  | num (q : ℚ)
deriving DecidableEq, Repr

/-- A Python dict of request parameters: insertion-ordered association list. -/
abbrev Params := List (String × Value)

/-- `k in d` for a dict. -/
def hasKey (p : Params) (k : String) : Bool :=
  p.any (fun kv => kv.1 == k)

/-- `d[k]` as an option (first occurrence wins, as in a dict). -/
def plookup : Params → String → Option Value
  | [], _ => none
  | (k', v) :: rest, k => if k' = k then some v else plookup rest k

/-- `d[k] = v`: replace the value at `k` in place if present, else append. -/
def dictSet : Params → String → Value → Params
  | [], k, v => [(k, v)]
  | (k', v') :: rest, k, v =>
    if k' = k then (k', v) :: rest else (k', v') :: dictSet rest k v

/-- `d.setdefault(k, v)`: append `(k, v)` only when `k` is absent. -/
def dictSetdefault (p : Params) (k : String) (v : Value) : Params :=
  if hasKey p k then p else p ++ [(k, v)]

/-- Number of entries of a dict carrying key `k`. -/
def countKey (p : Params) (k : String) : Nat :=
  p.countP (fun kv => kv.1 == k)

/-- Truncation to a 32-bit word. -/
def w32 (n : Nat) : Nat := n % 4294967296

/-- 32-bit right rotation (for words `x < 2^32`). -/
def rotr (n x : Nat) : Nat :=
  w32 ((x >>> n) ||| (x <<< (32 - n)))

/-- The SHA-256 round constants. -/
def sha256K : List Nat :=
  [1116352408, 1899447441, 3049323471, 3921009573, 961987163, 1508970993,
   2453635748, 2870763221, 3624381080, 310598401, 607225278, 1426881987,
   1925078388, 2162078206, 2614888103, 3248222580, 3835390401, 4022224774,
   264347078, 604807628, 770255983, 1249150122, 1555081692, 1996064986,
   2554220882, 2821834349, 2952996808, 3210313671, 3336571891, 3584528711,
   113926993, 338241895, 666307205, 773529912, 1294757372, 1396182291,
   1695183700, 1986661051, 2177026350, 2456956037, 2730485921, 2820302411,
   3259730800, 3345764771, 3516065817, 3600352804, 4094571909, 275423344,
   430227734, 506948616, 659060556, 883997877, 958139571, 1322822218,
   1537002063, 1747873779, 1955562222, 2024104815, 2227730452, 2361852424,
   2428436474, 2756734187, 3204031479, 3329325298]

/-- The SHA-256 initial hash state. -/
def sha256H0 : List Nat :=
  [1779033703, 3144134277, 1013904242, 2773480762, 1359893119, 2600822924,
   528734635, 1541459225]

/-- Big-endian 32-bit word `i` of a 64-byte block. -/
def be32At (block : List Nat) (i : Nat) : Nat :=
  block.getD (4 * i) 0 * 16777216 + block.getD (4 * i + 1) 0 * 65536 +
    block.getD (4 * i + 2) 0 * 256 + block.getD (4 * i + 3) 0

/-- SHA-256 message schedule: 16 block words extended to 64. -/
def sha256Schedule (block : List Nat) : List Nat :=
  let w0 := (List.range 16).map (be32At block)
  (List.range 48).foldl
    (fun w _ =>
      let n := w.length
      let s0 := rotr 7 (w.getD (n - 15) 0) ^^^ rotr 18 (w.getD (n - 15) 0) ^^^
        (w.getD (n - 15) 0 >>> 3)
      let s1 := rotr 17 (w.getD (n - 2) 0) ^^^ rotr 19 (w.getD (n - 2) 0) ^^^
        (w.getD (n - 2) 0 >>> 10)
      w ++ [w32 (w.getD (n - 16) 0 + s0 + w.getD (n - 7) 0 + s1)])
    w0

/-- One SHA-256 compression round over a 64-byte block. -/
def sha256Compress (h : List Nat) (block : List Nat) : List Nat :=
  let w := sha256Schedule block
  let final := (List.range 64).foldl
    (fun st i =>
      match st with
      | [a, b, c, d, e, f, g, hh] =>
        let S1 := rotr 6 e ^^^ rotr 11 e ^^^ rotr 25 e
        let ch := (e &&& f) ^^^ ((e ^^^ 4294967295) &&& g)
        let t1 := w32 (hh + S1 + ch + sha256K.getD i 0 + w.getD i 0)
        let S0 := rotr 2 a ^^^ rotr 13 a ^^^ rotr 22 a
        let mj := (a &&& b) ^^^ (a &&& c) ^^^ (b &&& c)
        let t2 := w32 (S0 + mj)
        [w32 (t1 + t2), a, b, c, w32 (d + t1), e, f, g]
      | other => other)
    h
  List.zipWith (fun x y => w32 (x + y)) h final

/-- Big-endian 64-bit length encoding used by SHA-256 padding. -/
def be64 (n : Nat) : List Nat :=
  [n / 72057594037927936 % 256, n / 281474976710656 % 256,
   n / 1099511627776 % 256, n / 4294967296 % 256, n / 16777216 % 256,
   n / 65536 % 256, n / 256 % 256, n % 256]

/-- SHA-256 of a byte sequence (`hashlib.sha256`). -/
def sha256 (msg : List Nat) : List Nat :=
  let L := msg.length
  let padded := msg ++ [128] ++ List.replicate ((119 - L % 64) % 64) 0 ++ be64 (8 * L)
  let nBlocks := padded.length / 64
  let hFinal := (List.range nBlocks).foldl
    (fun h i => sha256Compress h ((padded.drop (64 * i)).take 64)) sha256H0
  (hFinal.map (fun x => [x / 16777216 % 256, x / 65536 % 256, x / 256 % 256, x % 256])).flatten

/-- `hmac.new(key, msg, hashlib.sha256).digest()`. -/
def hmacSha256 (key msg : List Nat) : List Nat :=
  let key := if 64 < key.length then sha256 key else key
  let key := key ++ List.replicate (64 - key.length) 0
  let ipad := key.map (fun b => b ^^^ 54)
  let opad := key.map (fun b => b ^^^ 92)
  sha256 (opad ++ sha256 (ipad ++ msg))

/-- Lowercase hex digit (the alphabet of `.hexdigest()`). -/
def hexChar (n : Nat) : Char :=
  if n < 10 then Char.ofNat (48 + n) else Char.ofNat (87 + n)

/-- Uppercase hex digit (the alphabet of percent-encoding). -/
def hexUpperChar (n : Nat) : Char :=
  if n < 10 then Char.ofNat (48 + n) else Char.ofNat (55 + n)

/-- `.hexdigest()`: lowercase hex rendering of a byte sequence. -/
def bytesToHex (bs : List Nat) : String :=
  String.mk ((bs.map (fun b => [hexChar (b / 16 % 16), hexChar (b % 16)])).flatten)

/-- UTF-8 encoding of one character. -/
def charUtf8 (c : Char) : List Nat :=
  let n := c.toNat
  if n < 128 then [n]
  else if n < 2048 then [192 + n / 64, 128 + n % 64]
  else if n < 65536 then [224 + n / 4096, 128 + n / 64 % 64, 128 + n % 64]
  else [240 + n / 262144, 128 + n / 4096 % 64, 128 + n / 64 % 64, 128 + n % 64]

/-- `s.encode("utf-8")`. -/
def strBytes (s : String) : List Nat :=
  (s.data.map charUtf8).flatten

/-- Fractional decimal digits of a rational in `[0, 1)` (at most `fuel` digits). -/
def ratFracDigits : ℚ → Nat → List Char
  | _, 0 => []
  | q, fuel + 1 =>
    if q = 0 then []
    else
      let q10 := q * 10
      Char.ofNat (48 + (⌊q10⌋).toNat) :: ratFracDigits (q10 - ⌊q10⌋) fuel

/-- Decimal rendering of a rational, with at least one fractional digit,
modelling Python's `str` on (exact-decimal) floats. -/
def ratStr (q : ℚ) : String :=
  let sgn := if q < 0 then "-" else ""
  let aq := |q|
  let ds := ratFracDigits (aq - ⌊aq⌋) 60
  let ds := if ds = [] then ['0'] else ds
  sgn ++ toString (⌊aq⌋).toNat ++ "." ++ String.mk ds

/-- Python `str` of a parameter value. -/
def valueToString : Value → String
  | .str s => s
  | .int n => toString n
  | .num q => ratStr q

/-- `urllib.parse.quote_plus` on one character: alphanumerics and `_.-~`
kept, space becomes `+`, everything else percent-encoded per UTF-8 byte. -/
def quoteChar (c : Char) : List Char :=
  if c.isAlphanum || c == '_' || c == '.' || c == '-' || c == '~' then [c]
  else if c == ' ' then ['+']
  else ((charUtf8 c).map (fun b => ['%', hexUpperChar (b / 16 % 16), hexUpperChar (b % 16)])).flatten

/-- `urllib.parse.quote_plus` on a string. -/
def quote_plus (s : String) : String :=
  String.mk ((s.data.map quoteChar).flatten)

/-- `urllib.parse.urlencode(data, doseq=True)` for scalar-valued dicts. -/
def urlencode (data : Params) : String :=
  String.intercalate "&" (data.map (fun kv => quote_plus kv.1 ++ "=" ++ quote_plus (valueToString kv.2)))

/-- `BasicBot._sign` (lines 52-57): HMAC-SHA256 of the url-encoded query
string under the secret key, as a lowercase hex digest. -/
def signQuery (secret : List Nat) (data : Params) : String :=
  bytesToHex (hmacSha256 secret (strBytes (urlencode data)))

/-- A lowercase hexadecimal character. -/
def isLowerHex (c : Char) : Bool :=
  ('0' ≤ c && c ≤ '9') || ('a' ≤ c && c ≤ 'f')

theorem isLowerHex_hexChar (m : Nat) (h : m < 16) : isLowerHex (hexChar m) = true := by
  interval_cases m <;> decide

theorem bytesToHex_lower (bs : List Nat) :
    ∀ c ∈ (bytesToHex bs).data, isLowerHex c = true := by
  intro c hc
  have hc2 : c ∈ (bs.map (fun b => [hexChar (b / 16 % 16), hexChar (b % 16)])).flatten := hc
  rcases List.mem_flatten.mp hc2 with ⟨l, hl, hcl⟩
  rcases List.mem_map.mp hl with ⟨b, _, rfl⟩
  rcases List.mem_cons.mp hcl with h1 | h1
  · subst h1
    exact isLowerHex_hexChar _ (Nat.mod_lt _ (by norm_num))
  · rcases List.mem_singleton.mp h1 with rfl
    exact isLowerHex_hexChar _ (Nat.mod_lt _ (by norm_num))

/-- C9: for a payload without a `signature` key, `_sign` is a pure deterministic
function of the secret and the ordered mapping — identical mappings give the
identical signature — and the signature is exactly the lowercase hex digest of
HMAC-SHA256 over the standard query-string encoding of the mapping. -/
theorem sign_deterministic (secret : List Nat) (d1 d2 : Params)
    (hsig : hasKey d1 "signature" = false) (heq : d1 = d2) :
    signQuery secret d1 = signQuery secret d2 ∧
    signQuery secret d1 = bytesToHex (hmacSha256 secret (strBytes (urlencode d1))) ∧
    ∀ c ∈ (signQuery secret d1).data, isLowerHex c = true := by
  refine ⟨by rw [heq], rfl, ?_⟩
  exact bytesToHex_lower _

theorem sign_deterministic_witness :
    signQuery [1] [("a", Value.str "b")] = signQuery [1] [("a", Value.str "b")] ∧
    signQuery [1] [("a", Value.str "b")] =
      bytesToHex (hmacSha256 [1] (strBytes (urlencode [("a", Value.str "b")]))) :=
  ⟨(sign_deterministic [1] [("a", Value.str "b")] [("a", Value.str "b")]
      (by decide) rfl).1,
   (sign_deterministic [1] [("a", Value.str "b")] [("a", Value.str "b")]
      (by decide) rfl).2.1⟩


theorem hasKey_iff_mem (p : Params) (k : String) :
    hasKey p k = true ↔ k ∈ p.map Prod.fst := by
  simp [hasKey, List.any_eq_true, List.mem_map]

theorem hasKey_cons (a : String) (b : Value) (p : Params) (k : String) :
    hasKey ((a, b) :: p) k = ((a == k) || hasKey p k) := by
  simp [hasKey, List.any_cons]

theorem hasKey_append (p q : Params) (k : String) :
    hasKey (p ++ q) k = (hasKey p k || hasKey q k) := by
  simp [hasKey, List.any_append]

theorem dictSet_of_not_hasKey (p : Params) (k : String) (v : Value)
    (h : hasKey p k = false) : dictSet p k v = p ++ [(k, v)] := by
  induction p with
  | nil => rfl
  | cons kv rest ih =>
    obtain ⟨a, b⟩ := kv
    rw [hasKey_cons, Bool.or_eq_false_iff, beq_eq_false_iff_ne] at h
    simp [dictSet, h.1, ih h.2]

theorem hasKey_dictSet (p : Params) (k : String) (v : Value) (k' : String) :
    hasKey (dictSet p k v) k' = (hasKey p k' || (k == k')) := by
  induction p with
  | nil => simp [dictSet, hasKey]
  | cons kv rest ih =>
    obtain ⟨a, b⟩ := kv
    by_cases hak : a = k
    · subst hak
      have hd : dictSet ((a, b) :: rest) a v = (a, v) :: rest := by
        simp [dictSet]
      rw [hd, hasKey_cons, hasKey_cons]
      cases hx : (a == k') <;> simp [hx]
    · have hd : dictSet ((a, b) :: rest) k v = (a, b) :: dictSet rest k v := by
        simp [dictSet, hak]
      rw [hd, hasKey_cons, hasKey_cons, ih]
      cases hx : (a == k') <;> cases hy : hasKey rest k' <;> simp [hx, hy]

theorem plookup_dictSet (p : Params) (k : String) (v : Value) (k' : String) :
    plookup (dictSet p k v) k' = if k = k' then some v else plookup p k' := by
  induction p with
  | nil => simp [dictSet, plookup]
  | cons kv rest ih =>
    obtain ⟨a, b⟩ := kv
    by_cases hak : a = k
    · subst hak
      have hd : dictSet ((a, b) :: rest) a v = (a, v) :: rest := by
        simp [dictSet]
      rw [hd]
      by_cases hk : a = k'
      · simp [plookup, hk]
      · simp [plookup, hk]
    · have hd : dictSet ((a, b) :: rest) k v = (a, b) :: dictSet rest k v := by
        simp [dictSet, hak]
      rw [hd]
      by_cases hk : a = k'
      · have hkk : ¬ k = k' := fun h2 => hak (hk.trans h2.symm)
        simp [plookup, hk, hkk]
      · simp [plookup, hk, ih]

theorem plookup_eq_none_iff (p : Params) (k : String) :
    plookup p k = none ↔ hasKey p k = false := by
  induction p with
  | nil => simp [plookup, hasKey]
  | cons kv rest ih =>
    obtain ⟨a, b⟩ := kv
    rw [hasKey_cons, Bool.or_eq_false_iff, beq_eq_false_iff_ne]
    by_cases hk : a = k
    · simp [plookup, hk]
    · simp [plookup, hk, ih]

theorem plookup_append (xs ys : Params) (k : String) :
    plookup (xs ++ ys) k = (plookup xs k).or (plookup ys k) := by
  induction xs with
  | nil => simp [plookup]
  | cons kv rest ih =>
    obtain ⟨a, b⟩ := kv
    by_cases hk : a = k
    · simp [plookup, hk]
    · simp [plookup, hk, ih]

theorem countKey_append (p q : Params) (k : String) :
    countKey (p ++ q) k = countKey p k + countKey q k := by
  simp [countKey, List.countP_append]

theorem countKey_cons (a : String) (b : Value) (p : Params) (k : String) :
    countKey ((a, b) :: p) k = countKey p k + (if a == k then 1 else 0) := by
  simp [countKey, List.countP_cons]

theorem countKey_eq_zero_of_not_hasKey (p : Params) (k : String)
    (h : hasKey p k = false) : countKey p k = 0 := by
  rw [countKey, List.countP_eq_zero]
  intro kv hm
  simp [hasKey, List.any_eq_true] at h
  simpa using h kv.1 kv.2 hm

theorem countKey_le_one_of_nodup (p : Params) (k : String)
    (h : (p.map Prod.fst).Nodup) : countKey p k ≤ 1 := by
  induction p with
  | nil => simp [countKey]
  | cons kv rest ih =>
    obtain ⟨a, b⟩ := kv
    rw [List.map_cons, List.nodup_cons] at h
    rw [countKey_cons]
    by_cases hk : a = k
    · subst hk
      have hnk : hasKey rest a = false := by
        rcases hb : hasKey rest a with _ | _
        · rfl
        · exact absurd ((hasKey_iff_mem rest a).mp hb) h.1
      simp [countKey_eq_zero_of_not_hasKey rest a hnk]
    · simp [beq_eq_false_iff_ne, hk, ih h.2]

/-- `BasicBot._signed_request`, parameter-assembly stage (lines 62-66):
copy the payload (`payload.copy()` — the caller's dict is never mutated; the
model is pure so the copy is implicit), default `recvWindow`, set the
`timestamp`, sign, and append the signature. -/
def signed_request_params (recvDefault : ℤ) (secret : List Nat) (payload : Params) (now : ℤ) : Params :=
  let p := dictSetdefault payload "recvWindow" (Value.int recvDefault)
  let p2 := dictSet p "timestamp" (Value.int now)
  dictSet p2 "signature" (Value.str (signQuery secret p2))

theorem hasKey_setdefault (p : Params) (k : String) (v : Value) (k' : String) :
    hasKey (dictSetdefault p k v) k' = (hasKey p k' || (k == k')) := by
  unfold dictSetdefault
  split_ifs with h
  · by_cases hk : k = k'
    · subst hk
      simp [h]
    · simp [beq_eq_false_iff_ne, hk]
  · rw [hasKey_append]
    simp [hasKey]

theorem plookup_setdefault_self (p : Params) (k : String) (v : Value) :
    plookup (dictSetdefault p k v) k = some ((plookup p k).getD v) := by
  unfold dictSetdefault
  split_ifs with h
  · rcases hl : plookup p k with _ | w
    · rw [plookup_eq_none_iff] at hl
      rw [hl] at h
      cases h
    · simp
  · have hn : plookup p k = none := (plookup_eq_none_iff p k).mpr (by simpa using h)
    rw [plookup_append, hn]
    simp [plookup]

theorem plookup_setdefault_ne (p : Params) (k : String) (v : Value) (k' : String)
    (h : ¬ k = k') : plookup (dictSetdefault p k v) k' = plookup p k' := by
  unfold dictSetdefault
  split_ifs with hk
  · rfl
  · rw [plookup_append]
    simp [plookup, h]

theorem countKey_setdefault_ne (p : Params) (k : String) (v : Value) (k' : String)
    (h : ¬ k = k') : countKey (dictSetdefault p k v) k' = countKey p k' := by
  unfold dictSetdefault
  split_ifs with hk
  · rfl
  · rw [countKey_append, countKey_cons]
    simp [countKey, beq_eq_false_iff_ne, h]

theorem countKey_dictSet_self (p : Params) (k : String) (v : Value)
    (h : countKey p k ≤ 1) : countKey (dictSet p k v) k = 1 := by
  induction p with
  | nil => simp [dictSet, countKey]
  | cons kv rest ih =>
    obtain ⟨a, b⟩ := kv
    by_cases hak : a = k
    · subst hak
      have hd : dictSet ((a, b) :: rest) a v = (a, v) :: rest := by
        simp [dictSet]
      rw [hd, countKey_cons]
      rw [countKey_cons] at h
      simp at h ⊢
      omega
    · have hd : dictSet ((a, b) :: rest) k v = (a, b) :: dictSet rest k v := by
        simp [dictSet, hak]
      rw [hd, countKey_cons]
      rw [countKey_cons] at h
      simp [beq_eq_false_iff_ne, hak] at h ⊢
      exact ih h

theorem countKey_dictSet_ne (p : Params) (k : String) (v : Value) (k' : String)
    (h : ¬ k = k') : countKey (dictSet p k v) k' = countKey p k' := by
  induction p with
  | nil => simp [dictSet, countKey, beq_eq_false_iff_ne, h]
  | cons kv rest ih =>
    obtain ⟨a, b⟩ := kv
    by_cases hak : a = k
    · subst hak
      have hd : dictSet ((a, b) :: rest) a v = (a, v) :: rest := by
        simp [dictSet]
      rw [hd, countKey_cons, countKey_cons]
    · have hd : dictSet ((a, b) :: rest) k v = (a, b) :: dictSet rest k v := by
        simp [dictSet, hak]
      rw [hd, countKey_cons, countKey_cons, ih]

/-- C1: for a payload without a `signature` key, the dispatched parameter set
is the (unmutated, since the model is pure and the source copies the dict)
payload extended with a defaulted `recvWindow`, exactly one `timestamp` entry
and exactly one `signature` entry; the signature is appended last and is
computed over the full parameter set excluding the signature field itself. -/
theorem signed_request_shape (recvD : ℤ) (secret : List Nat) (payload : Params) (now : ℤ)
    (hnodup : (payload.map Prod.fst).Nodup)
    (hsig : hasKey payload "signature" = false) :
    countKey (signed_request_params recvD secret payload now) "timestamp" = 1 ∧
    countKey (signed_request_params recvD secret payload now) "signature" = 1 ∧
    (signed_request_params recvD secret payload now).getLast? =
      some ("signature",
        Value.str (signQuery secret (signed_request_params recvD secret payload now).dropLast)) ∧
    (signed_request_params recvD secret payload now).dropLast =
      (signed_request_params recvD secret payload now).filter (fun kv => kv.1 != "signature") ∧
    plookup (signed_request_params recvD secret payload now) "recvWindow" =
      some ((plookup payload "recvWindow").getD (Value.int recvD)) ∧
    (∀ k, ¬ k = "recvWindow" → ¬ k = "timestamp" → ¬ k = "signature" →
      plookup (signed_request_params recvD secret payload now) k = plookup payload k) := by
  have hb : hasKey (dictSet (dictSetdefault payload "recvWindow" (Value.int recvD))
      "timestamp" (Value.int now)) "signature" = false := by
    rw [hasKey_dictSet, hasKey_setdefault, hsig]
    rfl
  have hout : signed_request_params recvD secret payload now =
      dictSet (dictSetdefault payload "recvWindow" (Value.int recvD)) "timestamp" (Value.int now)
        ++ [("signature", Value.str (signQuery secret
          (dictSet (dictSetdefault payload "recvWindow" (Value.int recvD)) "timestamp" (Value.int now))))] := by
    simp only [signed_request_params]
    exact dictSet_of_not_hasKey _ _ _ hb
  set base := dictSet (dictSetdefault payload "recvWindow" (Value.int recvD)) "timestamp" (Value.int now) with hbase
  have hdrop : (signed_request_params recvD secret payload now).dropLast = base := by
    rw [hout]
    exact List.dropLast_concat
  refine ⟨?_, ?_, ?_, ?_, ?_, ?_⟩
  · rw [hout, countKey_append]
    have h1 : countKey base "timestamp" = 1 := by
      apply countKey_dictSet_self
      rw [countKey_setdefault_ne _ _ _ _ (by decide)]
      exact countKey_le_one_of_nodup payload "timestamp" hnodup
    rw [h1]
    rfl
  · rw [hout, countKey_append, countKey_eq_zero_of_not_hasKey base "signature" hb]
    rfl
  · rw [hdrop, hout]
    exact List.getLast?_concat _
  · rw [hdrop, hout, List.filter_append]
    have h1 : base.filter (fun kv => kv.1 != "signature") = base := by
      apply List.filter_eq_self.mpr
      intro kv hm
      simp [hasKey, List.any_eq_true] at hb
      have := hb kv.1 kv.2 hm
      simpa [bne] using this
    rw [h1]
    simp
  · rw [hout, plookup_append]
    have h1 : plookup base "recvWindow" = some ((plookup payload "recvWindow").getD (Value.int recvD)) := by
      rw [hbase, plookup_dictSet]
      simp only [if_neg (by decide : ¬ ("timestamp" : String) = "recvWindow")]
      exact plookup_setdefault_self payload "recvWindow" (Value.int recvD)
    rw [h1]
    rfl
  · intro k hk1 hk2 hk3
    rw [hout, plookup_append]
    have h1 : plookup base k = plookup payload k := by
      rw [hbase, plookup_dictSet]
      rw [if_neg (fun h => hk2 h.symm)]
      exact plookup_setdefault_ne payload "recvWindow" (Value.int recvD) k (fun h => hk1 h.symm)
    rw [h1]
    have hks : ¬ ("signature" : String) = k := fun h => hk3 h.symm
    have h2 : plookup [("signature", Value.str (signQuery secret base))] k = none := by
      simp [plookup, hks]
    rw [h2]
    cases plookup payload k <;> simp

theorem signed_request_shape_witness :
    plookup (signed_request_params 5000 [] [("symbol", Value.str "BTCUSDT")] 1700000000000)
      "recvWindow" = some (Value.int 5000) := by
  have h := signed_request_shape 5000 [] [("symbol", Value.str "BTCUSDT")] 1700000000000
    (by simp) (by decide)
  have h5 := h.2.2.2.2.1
  simpa [plookup] using h5

/-- The typed failure raised on a non-success HTTP status (line 90):
`RuntimeError("API returned error {status}: {err_msg}")`, carrying the
status code and the extracted message (`None` in Python becomes `none`). -/
structure ApiError where
  status : Nat
  msg : Option String
deriving DecidableEq, Repr

/-- The decoded response body (lines 82-85): a JSON object (message fields
modelled as strings), some other decoded JSON value (its Python `str` form),
or — when `r.json()` raises — the raw response text. -/
inductive RespBody
  | jdict (fields : List (String × String))
  | jother (text : String)
  | raw (text : String)
deriving DecidableEq, Repr

/-- `content.get("msg")` for a decoded JSON object. -/
def strLookup (fs : List (String × String)) (k : String) : Option String :=
  (fs.find? (fun kv => kv.1 == k)).map Prod.snd

/-- `k in fs` for a decoded JSON object. -/
def hasStrKey (fs : List (String × String)) (k : String) : Bool :=
  fs.any (fun kv => kv.1 == k)

/-- `err_msg = content.get("msg") if isinstance(content, dict) else str(content)`
(line 89). -/
def errMsg : RespBody → Option String
  | .jdict fs => strLookup fs "msg"
  | .jother t => some t
  | .raw t => some t

/-- `BasicBot._signed_request`, response stage (lines 88-92): `r.ok` means
`status < 400`; on failure raise the typed error, on success return the
decoded body unmodified. -/
def handle_response (status : Nat) (body : RespBody) : Except ApiError RespBody :=
  if status < 400 then Except.ok body
  else Except.error ⟨status, errMsg body⟩

/-- C6 (amended): every non-success status raises an ApiError carrying the
status code together with the `msg` field when the decoded body is a mapping
containing it, the body's string form when it is unparseable or not a mapping,
and `None` (not the raw body) when the body is a mapping without a `msg`
field; HTTP 400 with body `msg = Invalid quantity.` surfaces as
ApiError 400 "Invalid quantity."; a success status returns the decoded body
unmodified. -/
theorem api_error_surface :
    (∀ status body, 400 ≤ status →
      handle_response status body = Except.error ⟨status, errMsg body⟩) ∧
    (∀ status fs m, 400 ≤ status → strLookup fs "msg" = some m →
      handle_response status (RespBody.jdict fs) = Except.error ⟨status, some m⟩) ∧
    (∀ status t, 400 ≤ status →
      handle_response status (RespBody.raw t) = Except.error ⟨status, some t⟩) ∧
    (∀ status t, 400 ≤ status →
      handle_response status (RespBody.jother t) = Except.error ⟨status, some t⟩) ∧
    (∀ status fs, 400 ≤ status → hasStrKey fs "msg" = false →
      handle_response status (RespBody.jdict fs) = Except.error ⟨status, none⟩) ∧
    handle_response 400 (RespBody.jdict [("msg", "Invalid quantity.")]) =
      Except.error ⟨400, some "Invalid quantity."⟩ ∧
    (∀ status body, status < 400 → handle_response status body = Except.ok body) := by
  refine ⟨?_, ?_, ?_, ?_, ?_, ?_, ?_⟩
  · intro status body h
    simp [handle_response, Nat.not_lt.mpr h]
  · intro status fs m h hm
    simp [handle_response, Nat.not_lt.mpr h, errMsg, hm]
  · intro status t h
    simp [handle_response, Nat.not_lt.mpr h, errMsg]
  · intro status t h
    simp [handle_response, Nat.not_lt.mpr h, errMsg]
  · intro status fs h hna
    have hn : strLookup fs "msg" = none := by
      rw [strLookup, List.find?_eq_none.mpr, Option.map_none']
      intro kv hm
      simp [hasStrKey, List.any_eq_true] at hna
      simpa using hna kv.1 kv.2 hm
    simp [handle_response, Nat.not_lt.mpr h, errMsg, hn]
  · rfl
  · intro status body h
    simp [handle_response, h]

theorem api_error_surface_witness :
    handle_response 418 (RespBody.jdict [("msg", "teapot")]) =
      Except.error ⟨418, some "teapot"⟩ :=
  api_error_surface.2.1 418 [("msg", "teapot")] "teapot" (by norm_num) (by decide)

/-- C6 counterexample: a 400 response whose decoded body is a mapping without
a `msg` field surfaces an ApiError whose message is `none` — it does not carry
the raw response body (or any string at all). -/
theorem api_error_cex :
    handle_response 400 (RespBody.jdict [("code", "-1013")]) =
      Except.error ⟨400, none⟩ ∧
    errMsg (RespBody.jdict [("code", "-1013")]) = none :=
  ⟨rfl, rfl⟩

/-- Python `str.upper()` (per-character ASCII uppercasing). -/
def pyUpper (s : String) : String :=
  String.mk (s.data.map Char.toUpper)

/-- The per-symbol trading filter extracted at lines 115-118. -/
structure InstrumentFilter where
  minQty : ℚ
  stepSize : ℚ
  minPrice : ℚ
  tickSize : ℚ
deriving DecidableEq, Repr

/-- The conservative fallback filter of line 124:
`min_qty, step_size, min_price, tick_size = 0.001, 0.001, 0.01, 0.01`. -/
def defaultFilter : InstrumentFilter :=
  ⟨1 / 1000, 1 / 1000, 1 / 100, 1 / 100⟩

/-- One entry of `exchangeInfo["symbols"]`.  `lotSize` holds the parsed
`LOT_SIZE` fields `(minQty, stepSize)` and `priceFilter` the parsed
`PRICE_FILTER` fields `(minPrice, tickSize)`; `none` models a missing filter
record or field, whose `KeyError`/`ValueError` is caught by the fallback
handler. -/
structure SymInfo where
  symbol : String
  lotSize : Option (ℚ × ℚ)
  priceFilter : Option (ℚ × ℚ)
deriving DecidableEq, Repr

/-- Lines 110-124: resolve the instrument filter for a symbol.  `none` as the
fetch outcome models `_signed_request` raising; a missing symbol raises
`ValueError` inside the same `try`, and incomplete filter data raises `KeyError`
there too — every failure lands in the `except` and yields the default. -/
def resolveFilter : Option (List SymInfo) → String → InstrumentFilter
  | none, _ => defaultFilter
  | some syms, symbol =>
    match syms.find? (fun s => s.symbol == symbol) with
    | none => defaultFilter
    | some s =>
      match s.lotSize, s.priceFilter with
      | some (mq, ss), some (mp, ts) => ⟨mq, ss, mp, ts⟩
      | _, _ => defaultFilter

/-- An HTTP round trip attempted by the client. -/
inductive HttpCall
  | get (path : String) (params : Params)
  | post (path : String) (params : Params)
  | delete (path : String) (params : Params)
deriving DecidableEq, Repr

/-- Outcome of a public operation before the network layer: either the
`ValueError` raised during validation, or the parameter set handed to
`_signed_request`. -/
inductive BotResult
  | validationError (msg : String)
  | dispatched (params : Params)
deriving DecidableEq, Repr

/-- `str(b).lower()` for a Python bool. -/
def pyBool (b : Bool) : String :=
  if b then "true" else "false"

/-- Lines 126-164: quantize quantity and price against the filter, then build
the order parameter dict for the requested variant and drop `None` values. -/
def build_params (f : InstrumentFilter) (symbol side otype : String)
    (quantity price : Option ℚ) (time_in_force : String) (stop_price : Option ℚ)
    (reduce_only close_position : Bool) (position_side : Option String) : Params :=
  let quantity := adjust f.minQty f.stepSize quantity
  let price := adjust f.minPrice f.tickSize price
  let base : List (String × Option Value) :=
    [("symbol", some (Value.str symbol)),
     ("side", some (Value.str side)),
     ("quantity", quantity.map Value.num),
     ("reduceOnly", some (Value.str (pyBool reduce_only))),
     ("closePosition", some (Value.str (pyBool close_position)))]
  let base := base ++
    (match position_side with
     | some ps => if ps = "" then [] else [("positionSide", some (Value.str ps))]
     | none => [])
  let base := base ++
    (if otype = "MARKET" then [("type", some (Value.str "MARKET"))]
     else if otype = "LIMIT" then
       [("type", some (Value.str "LIMIT")), ("price", price.map Value.num),
        ("timeInForce", some (Value.str time_in_force))]
     else if otype = "STOP_LIMIT" then
       [("type", some (Value.str "STOP")), ("price", price.map Value.num),
        ("stopPrice", stop_price.map Value.num),
        ("timeInForce", some (Value.str time_in_force))]
     else [])
  base.filterMap (fun kv => kv.2.map (fun v => (kv.1, v)))

/-- `BasicBot.place_order` (lines 95-166) up to the network layer: uppercase
the inputs, validate side and type, resolve the instrument filter from the
exchange-info fetch outcome, build the parameters and dispatch.  The second
component lists the HTTP calls attempted. -/
def place_order (fetch : Option (List SymInfo)) (symbol side order_type : String)
    (quantity price : Option ℚ) (time_in_force : String) (stop_price : Option ℚ)
    (reduce_only close_position : Bool) (position_side : Option String) :
    BotResult × List HttpCall :=
  let symbolU := (pyUpper symbol)
  let sideU := (pyUpper side)
  let typeU := (pyUpper order_type)
  if ¬ (sideU = "BUY" ∨ sideU = "SELL") then
    (BotResult.validationError "side must be BUY or SELL", [])
  else if ¬ (typeU = "MARKET" ∨ typeU = "LIMIT" ∨ typeU = "STOP_LIMIT") then
    (BotResult.validationError "order_type must be MARKET, LIMIT or STOP_LIMIT", [])
  else
    let f := resolveFilter fetch symbolU
    let ps := build_params f symbolU sideU typeU quantity price time_in_force
      stop_price reduce_only close_position position_side
    (BotResult.dispatched ps,
      [HttpCall.get "/fapi/v1/exchangeInfo" [], HttpCall.post "/fapi/v1/order" ps])

/-- Python truthiness of an optional int (`0` and `None` are falsy). -/
def intTruthy : Option ℤ → Bool
  | none => false
  | some n => n != 0

/-- Python truthiness of an optional string (`""` and `None` are falsy). -/
def strTruthy : Option String → Bool
  | none => false
  | some s => s != ""

/-- The identifier parameter dict shared by `get_order` and `cancel_order`
(lines 173-177 and 185-189). -/
def idParams (symbol : String) (order_id : Option ℤ)
    (orig_client_order_id : Option String) : Params :=
  [("symbol", Value.str (pyUpper symbol))] ++
    (match order_id with
     | some i => if i = 0 then [] else [("orderId", Value.int i)]
     | none => []) ++
    (match orig_client_order_id with
     | some s => if s = "" then [] else [("origClientOrderId", Value.str s)]
     | none => [])

/-- `BasicBot.get_order` (lines 169-178) up to the network layer. -/
def get_order (symbol : String) (order_id : Option ℤ)
    (orig_client_order_id : Option String) : BotResult × List HttpCall :=
  if intTruthy order_id || strTruthy orig_client_order_id then
    (BotResult.dispatched (idParams symbol order_id orig_client_order_id),
     [HttpCall.get "/fapi/v1/order" (idParams symbol order_id orig_client_order_id)])
  else
    (BotResult.validationError "Either order_id or orig_client_order_id must be provided", [])

/-- `BasicBot.cancel_order` (lines 181-190) up to the network layer. -/
def cancel_order (symbol : String) (order_id : Option ℤ)
    (orig_client_order_id : Option String) : BotResult × List HttpCall :=
  if intTruthy order_id || strTruthy orig_client_order_id then
    (BotResult.dispatched (idParams symbol order_id orig_client_order_id),
     [HttpCall.delete "/fapi/v1/order" (idParams symbol order_id orig_client_order_id)])
  else
    (BotResult.validationError "Either order_id or orig_client_order_id must be provided", [])

/-- C5: malformed caller input — a side other than BUY/SELL or a type other
than MARKET/LIMIT/STOP_LIMIT after uppercasing, or both order identifiers
missing on `get_order`/`cancel_order` — raises a descriptive `ValueError`
with zero HTTP calls attempted. -/
theorem validation_before_network :
    (∀ fetch symbol side order_type quantity price time_in_force stop_price
        reduce_only close_position position_side,
      ¬ (pyUpper side) = "BUY" → ¬ (pyUpper side) = "SELL" →
      place_order fetch symbol side order_type quantity price time_in_force
          stop_price reduce_only close_position position_side =
        (BotResult.validationError "side must be BUY or SELL", [])) ∧
    (∀ fetch symbol side order_type quantity price time_in_force stop_price
        reduce_only close_position position_side,
      ((pyUpper side) = "BUY" ∨ (pyUpper side) = "SELL") →
      ¬ (pyUpper order_type) = "MARKET" → ¬ (pyUpper order_type) = "LIMIT" →
      ¬ (pyUpper order_type) = "STOP_LIMIT" →
      place_order fetch symbol side order_type quantity price time_in_force
          stop_price reduce_only close_position position_side =
        (BotResult.validationError "order_type must be MARKET, LIMIT or STOP_LIMIT", [])) ∧
    (∀ symbol, get_order symbol none none =
      (BotResult.validationError "Either order_id or orig_client_order_id must be provided", [])) ∧
    (∀ symbol, cancel_order symbol none none =
      (BotResult.validationError "Either order_id or orig_client_order_id must be provided", [])) := by
  refine ⟨?_, ?_, ?_, ?_⟩
  · intro fetch symbol side order_type quantity price time_in_force stop_price
      reduce_only close_position position_side h1 h2
    simp [place_order, h1, h2]
  · intro fetch symbol side order_type quantity price time_in_force stop_price
      reduce_only close_position position_side hs h1 h2 h3
    rcases hs with hs | hs <;> simp [place_order, hs, h1, h2, h3]
  · intro symbol
    simp [get_order, intTruthy, strTruthy]
  · intro symbol
    simp [cancel_order, intTruthy, strTruthy]

theorem validation_before_network_witness :
    place_order none "BTCUSDT" "HOLD" "MARKET" none none "GTC" none false false none =
      (BotResult.validationError "side must be BUY or SELL", []) ∧
    place_order none "BTCUSDT" "BUY" "ICEBERG" none none "GTC" none false false none =
      (BotResult.validationError "order_type must be MARKET, LIMIT or STOP_LIMIT", []) ∧
    get_order "BTCUSDT" none none =
      (BotResult.validationError "Either order_id or orig_client_order_id must be provided", []) :=
  ⟨validation_before_network.1 none "BTCUSDT" "HOLD" "MARKET" none none "GTC"
      none false false none (by decide) (by decide),
   validation_before_network.2.1 none "BTCUSDT" "BUY" "ICEBERG" none none "GTC"
      none false false none (Or.inl (by decide)) (by decide) (by decide) (by decide),
   validation_before_network.2.2.1 "BTCUSDT"⟩

/-- C3: on a failed instrument-metadata fetch (or a parse failure of the
matched entry) `place_order` does not abort: the default filter
0.001/0.001/0.01/0.01 is substituted and the order is still built and
dispatched.  (The warning log of line 123 is an I/O side effect outside this
model; it is visible in the source.) -/
theorem metadata_fallback :
    (∀ symbol, resolveFilter none symbol = defaultFilter) ∧
    (∀ syms symbol s, syms.find? (fun x => x.symbol == symbol) = some s →
      s.lotSize = none ∨ s.priceFilter = none →
      resolveFilter (some syms) symbol = defaultFilter) ∧
    (∀ symbol side order_type quantity price time_in_force stop_price
        reduce_only close_position position_side,
      ((pyUpper side) = "BUY" ∨ (pyUpper side) = "SELL") →
      ((pyUpper order_type) = "MARKET" ∨ (pyUpper order_type) = "LIMIT" ∨
        (pyUpper order_type) = "STOP_LIMIT") →
      place_order none symbol side order_type quantity price time_in_force
          stop_price reduce_only close_position position_side =
        (BotResult.dispatched (build_params defaultFilter (pyUpper symbol)
            (pyUpper side) (pyUpper order_type) quantity price time_in_force
            stop_price reduce_only close_position position_side),
         [HttpCall.get "/fapi/v1/exchangeInfo" [],
          HttpCall.post "/fapi/v1/order" (build_params defaultFilter
            (pyUpper symbol) (pyUpper side) (pyUpper order_type) quantity price
            time_in_force stop_price reduce_only close_position position_side)])) := by
  refine ⟨fun _ => rfl, ?_, ?_⟩
  · intro syms symbol s hfind hbad
    simp only [resolveFilter, hfind]
    rcases hbad with hl | hp
    · rw [hl]
    · rw [hp]
      rcases s.lotSize with _ | ⟨mq, ss⟩ <;> rfl
  · intro symbol side order_type quantity price time_in_force stop_price
      reduce_only close_position position_side hs ht
    rcases hs with hs | hs <;> rcases ht with ht | ht | ht <;>
      simp [place_order, hs, ht, resolveFilter]

theorem metadata_fallback_witness :
    place_order none "BTCUSDT" "BUY" "MARKET" (some 1) none "GTC" none
        false false none =
      (BotResult.dispatched (build_params defaultFilter "BTCUSDT" "BUY"
          "MARKET" (some 1) none "GTC" none false false none),
       [HttpCall.get "/fapi/v1/exchangeInfo" [],
        HttpCall.post "/fapi/v1/order" (build_params defaultFilter "BTCUSDT"
          "BUY" "MARKET" (some 1) none "GTC" none false false none)]) := by
  have h := metadata_fallback.2.2 "BTCUSDT" "BUY" "MARKET" (some 1) none "GTC"
    none false false none (Or.inl (by decide)) (Or.inl (by decide))
  simpa using h

/-- C10: when the metadata fetch succeeds but no entry matches the symbol,
the `ValueError` raised at line 121 is caught by the same `except` handler as
fetch failures: the default filter is substituted and the order is still
dispatched, with no symbol-not-found failure surfaced to the caller. -/
theorem symbol_not_found_fallback :
    ∀ syms symbol side order_type quantity price time_in_force stop_price
        reduce_only close_position position_side,
      (∀ x ∈ syms, ¬ x.symbol = (pyUpper symbol)) →
      ((pyUpper side) = "BUY" ∨ (pyUpper side) = "SELL") →
      ((pyUpper order_type) = "MARKET" ∨ (pyUpper order_type) = "LIMIT" ∨
        (pyUpper order_type) = "STOP_LIMIT") →
      resolveFilter (some syms) (pyUpper symbol) = defaultFilter ∧
      place_order (some syms) symbol side order_type quantity price
          time_in_force stop_price reduce_only close_position position_side =
        (BotResult.dispatched (build_params defaultFilter (pyUpper symbol)
            (pyUpper side) (pyUpper order_type) quantity price time_in_force
            stop_price reduce_only close_position position_side),
         [HttpCall.get "/fapi/v1/exchangeInfo" [],
          HttpCall.post "/fapi/v1/order" (build_params defaultFilter
            (pyUpper symbol) (pyUpper side) (pyUpper order_type) quantity price
            time_in_force stop_price reduce_only close_position position_side)]) := by
  intro syms symbol side order_type quantity price time_in_force stop_price
    reduce_only close_position position_side hnone hs ht
  have hfind : syms.find? (fun x => x.symbol == (pyUpper symbol)) = none := by
    rw [List.find?_eq_none]
    intro x hx
    simpa using hnone x hx
  have hres : resolveFilter (some syms) (pyUpper symbol) = defaultFilter := by
    simp [resolveFilter, hfind]
  refine ⟨hres, ?_⟩
  rcases hs with hs | hs <;> rcases ht with ht | ht | ht <;>
    simp [place_order, hs, ht, hres]

theorem symbol_not_found_fallback_witness :
    resolveFilter (some [⟨"ETHUSDT", some (1, 1), some (1, 1)⟩]) "BTCUSDT" =
      defaultFilter ∧
    place_order (some [⟨"ETHUSDT", some (1, 1), some (1, 1)⟩]) "BTCUSDT" "BUY"
        "MARKET" (some 1) none "GTC" none false false none =
      (BotResult.dispatched (build_params defaultFilter "BTCUSDT" "BUY"
          "MARKET" (some 1) none "GTC" none false false none),
       [HttpCall.get "/fapi/v1/exchangeInfo" [],
        HttpCall.post "/fapi/v1/order" (build_params defaultFilter "BTCUSDT"
          "BUY" "MARKET" (some 1) none "GTC" none false false none)]) := by
  have h := symbol_not_found_fallback [⟨"ETHUSDT", some (1, 1), some (1, 1)⟩]
    "BTCUSDT" "BUY" "MARKET" (some 1) none "GTC" none false false none
    (by decide) (Or.inl (by decide)) (Or.inl (by decide))
  simpa using h


theorem place_order_dispatch (fetch : Option (List SymInfo))
    (symbol side order_type : String) (quantity price : Option ℚ)
    (time_in_force : String) (stop_price : Option ℚ)
    (reduce_only close_position : Bool) (position_side : Option String)
    (hs : (pyUpper side) = "BUY" ∨ (pyUpper side) = "SELL")
    (ht : (pyUpper order_type) = "MARKET" ∨ (pyUpper order_type) = "LIMIT" ∨
      (pyUpper order_type) = "STOP_LIMIT") :
    (place_order fetch symbol side order_type quantity price time_in_force
        stop_price reduce_only close_position position_side).1 =
      BotResult.dispatched (build_params (resolveFilter fetch (pyUpper symbol))
        (pyUpper symbol) (pyUpper side) (pyUpper order_type) quantity price
        time_in_force stop_price reduce_only close_position position_side) := by
  rcases hs with hs | hs <;> rcases ht with ht | ht | ht <;>
    simp [place_order, hs, ht]

set_option maxHeartbeats 2000000 in
theorem build_params_common (f : InstrumentFilter) (symbol side otype : String)
    (quantity price : Option ℚ) (tif : String) (sp : Option ℚ) (ro cp : Bool)
    (psd : Option String)
    (ht : otype = "MARKET" ∨ otype = "LIMIT" ∨ otype = "STOP_LIMIT") :
    plookup (build_params f symbol side otype quantity price tif sp ro cp psd)
        "symbol" = some (Value.str symbol) ∧
    plookup (build_params f symbol side otype quantity price tif sp ro cp psd)
        "side" = some (Value.str side) ∧
    plookup (build_params f symbol side otype quantity price tif sp ro cp psd)
        "reduceOnly" = some (Value.str (pyBool ro)) ∧
    plookup (build_params f symbol side otype quantity price tif sp ro cp psd)
        "closePosition" = some (Value.str (pyBool cp)) ∧
    plookup (build_params f symbol side otype quantity price tif sp ro cp psd)
        "quantity" = (adjust f.minQty f.stepSize quantity).map Value.num ∧
    (psd = none ∨ psd = some "" →
      plookup (build_params f symbol side otype quantity price tif sp ro cp psd)
        "positionSide" = none) ∧
    (∀ s, psd = some s → ¬ s = "" →
      plookup (build_params f symbol side otype quantity price tif sp ro cp psd)
        "positionSide" = some (Value.str s)) := by
  rcases ht with rfl | rfl | rfl <;>
    cases hq : adjust f.minQty f.stepSize quantity <;>
    cases hp : adjust f.minPrice f.tickSize price <;>
    cases sp <;>
    rcases psd with _ | s <;>
    refine ⟨?_, ?_, ?_, ?_, ?_, ?_, ?_⟩ <;>
    first
      | (simp [build_params, plookup, hq, hp]; done)
      | (by_cases hs : s = "" <;> simp [build_params, plookup, hq, hp, hs])

set_option maxHeartbeats 1000000 in
theorem build_params_market (f : InstrumentFilter) (symbol side : String)
    (quantity price : Option ℚ) (tif : String) (sp : Option ℚ) (ro cp : Bool)
    (psd : Option String) :
    plookup (build_params f symbol side "MARKET" quantity price tif sp ro cp psd)
        "type" = some (Value.str "MARKET") ∧
    plookup (build_params f symbol side "MARKET" quantity price tif sp ro cp psd)
        "price" = none ∧
    plookup (build_params f symbol side "MARKET" quantity price tif sp ro cp psd)
        "stopPrice" = none ∧
    plookup (build_params f symbol side "MARKET" quantity price tif sp ro cp psd)
        "timeInForce" = none := by
  cases hq : adjust f.minQty f.stepSize quantity <;>
    cases hp : adjust f.minPrice f.tickSize price <;>
    cases sp <;>
    rcases psd with _ | s <;>
    refine ⟨?_, ?_, ?_, ?_⟩ <;>
    first
      | (simp [build_params, plookup, hq, hp]; done)
      | (by_cases hs : s = "" <;> simp [build_params, plookup, hq, hp, hs])

set_option maxHeartbeats 1000000 in
theorem build_params_limit (f : InstrumentFilter) (symbol side : String)
    (quantity price : Option ℚ) (tif : String) (sp : Option ℚ) (ro cp : Bool)
    (psd : Option String) :
    plookup (build_params f symbol side "LIMIT" quantity price tif sp ro cp psd)
        "type" = some (Value.str "LIMIT") ∧
    plookup (build_params f symbol side "LIMIT" quantity price tif sp ro cp psd)
        "price" = (adjust f.minPrice f.tickSize price).map Value.num ∧
    plookup (build_params f symbol side "LIMIT" quantity price tif sp ro cp psd)
        "stopPrice" = none ∧
    plookup (build_params f symbol side "LIMIT" quantity price tif sp ro cp psd)
        "timeInForce" = some (Value.str tif) := by
  cases hq : adjust f.minQty f.stepSize quantity <;>
    cases hp : adjust f.minPrice f.tickSize price <;>
    cases sp <;>
    rcases psd with _ | s <;>
    refine ⟨?_, ?_, ?_, ?_⟩ <;>
    first
      | (simp [build_params, plookup, hq, hp]; done)
      | (by_cases hs : s = "" <;> simp [build_params, plookup, hq, hp, hs])

set_option maxHeartbeats 1000000 in
theorem build_params_stop (f : InstrumentFilter) (symbol side : String)
    (quantity price : Option ℚ) (tif : String) (sp : Option ℚ) (ro cp : Bool)
    (psd : Option String) :
    plookup (build_params f symbol side "STOP_LIMIT" quantity price tif sp ro cp psd)
        "type" = some (Value.str "STOP") ∧
    plookup (build_params f symbol side "STOP_LIMIT" quantity price tif sp ro cp psd)
        "price" = (adjust f.minPrice f.tickSize price).map Value.num ∧
    plookup (build_params f symbol side "STOP_LIMIT" quantity price tif sp ro cp psd)
        "stopPrice" = sp.map Value.num ∧
    plookup (build_params f symbol side "STOP_LIMIT" quantity price tif sp ro cp psd)
        "timeInForce" = some (Value.str tif) := by
  cases hq : adjust f.minQty f.stepSize quantity <;>
    cases hp : adjust f.minPrice f.tickSize price <;>
    cases sp <;>
    rcases psd with _ | s <;>
    refine ⟨?_, ?_, ?_, ?_⟩ <;>
    first
      | (simp [build_params, plookup, hq, hp]; done)
      | (by_cases hs : s = "" <;> simp [build_params, plookup, hq, hp, hs])

/-- C4 (amended): for every validated request, `place_order` dispatches the
parameter set built by `build_params`; that set always contains `symbol`,
`side`, `reduceOnly` and `closePosition` (booleans stringified), contains
`quantity` exactly when the (adjusted) quantity is not `None`, and contains
`positionSide` only when a non-empty one was supplied; MARKET adds only
`type=MARKET`; LIMIT adds `type=LIMIT`, `timeInForce`, and `price` when not
`None`; STOP_LIMIT adds `type=STOP` (not STOP_LIMIT), `timeInForce`, and
`price`/`stopPrice` when not `None`; every `None`-valued parameter is dropped
before signing. -/
theorem order_params_shape :
    (∀ fetch symbol side order_type quantity price time_in_force stop_price
        reduce_only close_position position_side,
      ((pyUpper side) = "BUY" ∨ (pyUpper side) = "SELL") →
      ((pyUpper order_type) = "MARKET" ∨ (pyUpper order_type) = "LIMIT" ∨
        (pyUpper order_type) = "STOP_LIMIT") →
      (place_order fetch symbol side order_type quantity price time_in_force
          stop_price reduce_only close_position position_side).1 =
        BotResult.dispatched (build_params (resolveFilter fetch (pyUpper symbol))
          (pyUpper symbol) (pyUpper side) (pyUpper order_type) quantity price
          time_in_force stop_price reduce_only close_position position_side)) ∧
    (∀ f symbol side otype quantity price tif sp ro cp psd,
      (otype = "MARKET" ∨ otype = "LIMIT" ∨ otype = "STOP_LIMIT") →
      plookup (build_params f symbol side otype quantity price tif sp ro cp psd)
          "symbol" = some (Value.str symbol) ∧
      plookup (build_params f symbol side otype quantity price tif sp ro cp psd)
          "side" = some (Value.str side) ∧
      plookup (build_params f symbol side otype quantity price tif sp ro cp psd)
          "reduceOnly" = some (Value.str (pyBool ro)) ∧
      plookup (build_params f symbol side otype quantity price tif sp ro cp psd)
          "closePosition" = some (Value.str (pyBool cp)) ∧
      plookup (build_params f symbol side otype quantity price tif sp ro cp psd)
          "quantity" = (adjust f.minQty f.stepSize quantity).map Value.num ∧
      (psd = none ∨ psd = some "" →
        plookup (build_params f symbol side otype quantity price tif sp ro cp psd)
          "positionSide" = none) ∧
      (∀ s, psd = some s → ¬ s = "" →
        plookup (build_params f symbol side otype quantity price tif sp ro cp psd)
          "positionSide" = some (Value.str s))) ∧
    (∀ f symbol side quantity price tif sp ro cp psd,
      plookup (build_params f symbol side "MARKET" quantity price tif sp ro cp psd)
          "type" = some (Value.str "MARKET") ∧
      plookup (build_params f symbol side "MARKET" quantity price tif sp ro cp psd)
          "price" = none ∧
      plookup (build_params f symbol side "MARKET" quantity price tif sp ro cp psd)
          "stopPrice" = none ∧
      plookup (build_params f symbol side "MARKET" quantity price tif sp ro cp psd)
          "timeInForce" = none) ∧
    (∀ f symbol side quantity price tif sp ro cp psd,
      plookup (build_params f symbol side "LIMIT" quantity price tif sp ro cp psd)
          "type" = some (Value.str "LIMIT") ∧
      plookup (build_params f symbol side "LIMIT" quantity price tif sp ro cp psd)
          "price" = (adjust f.minPrice f.tickSize price).map Value.num ∧
      plookup (build_params f symbol side "LIMIT" quantity price tif sp ro cp psd)
          "stopPrice" = none ∧
      plookup (build_params f symbol side "LIMIT" quantity price tif sp ro cp psd)
          "timeInForce" = some (Value.str tif)) ∧
    (∀ f symbol side quantity price tif sp ro cp psd,
      plookup (build_params f symbol side "STOP_LIMIT" quantity price tif sp ro cp psd)
          "type" = some (Value.str "STOP") ∧
      plookup (build_params f symbol side "STOP_LIMIT" quantity price tif sp ro cp psd)
          "price" = (adjust f.minPrice f.tickSize price).map Value.num ∧
      plookup (build_params f symbol side "STOP_LIMIT" quantity price tif sp ro cp psd)
          "stopPrice" = sp.map Value.num ∧
      plookup (build_params f symbol side "STOP_LIMIT" quantity price tif sp ro cp psd)
          "timeInForce" = some (Value.str tif)) :=
  ⟨fun fetch symbol side order_type quantity price time_in_force stop_price
      reduce_only close_position position_side hs ht =>
    place_order_dispatch fetch symbol side order_type quantity price
      time_in_force stop_price reduce_only close_position position_side hs ht,
   fun f symbol side otype quantity price tif sp ro cp psd ht =>
    build_params_common f symbol side otype quantity price tif sp ro cp psd ht,
   fun f symbol side quantity price tif sp ro cp psd =>
    build_params_market f symbol side quantity price tif sp ro cp psd,
   fun f symbol side quantity price tif sp ro cp psd =>
    build_params_limit f symbol side quantity price tif sp ro cp psd,
   fun f symbol side quantity price tif sp ro cp psd =>
    build_params_stop f symbol side quantity price tif sp ro cp psd⟩

theorem order_params_shape_witness :
    (place_order none "btcusdt" "buy" "market" (some 1) none "GTC" none
        false false none).1 =
      BotResult.dispatched (build_params (resolveFilter none (pyUpper "btcusdt"))
        (pyUpper "btcusdt") (pyUpper "buy") (pyUpper "market") (some 1) none
        "GTC" none false false none) :=
  order_params_shape.1 none "btcusdt" "buy" "market" (some 1) none "GTC" none
    false false none (Or.inl (by decide)) (Or.inl (by decide))

/-- C4 counterexample: a validated MARKET request with `quantity=None` is
dispatched with no `quantity` parameter at all, refuting the claim that the
built parameter set always contains `quantity`. -/
theorem order_params_shape_cex :
    (place_order none "BTCUSDT" "BUY" "MARKET" none none "GTC" none
        false false none).1 =
      BotResult.dispatched
        [("symbol", Value.str "BTCUSDT"), ("side", Value.str "BUY"),
         ("reduceOnly", Value.str "false"), ("closePosition", Value.str "false"),
         ("type", Value.str "MARKET")] ∧
    plookup
        [("symbol", Value.str "BTCUSDT"), ("side", Value.str "BUY"),
         ("reduceOnly", Value.str "false"), ("closePosition", Value.str "false"),
         ("type", Value.str "MARKET")] "quantity" = none := by
  constructor
  · rfl
  · rfl

theorem quantize_grid (m s v : ℚ) (a : ℤ) (hm : m = (a : ℚ) * s) (hs : 0 < s) :
    (∃ j : ℤ, quantize m s v = (j : ℚ) * s) ∧ m ≤ quantize m s v := by
  constructor
  · refine ⟨max a (roundHalfEven (v / s)), ?_⟩
    rw [quantize, round_step, hm, Int.cast_max]
    exact (max_mul_of_nonneg _ _ (le_of_lt hs)).symm
  · exact le_max_left _ _

/-- C7 (amended): in every dispatched order, a *non-zero* quantity (resp.
price) parameter is an exact integer multiple of the instrument's step (resp.
tick) and at least the instrument minimum, provided the minimum is itself an
integer multiple of the positive step (as exchange filters are).  A zero
value is passed through unquantized, and a minimum off the step grid can be
emitted as-is — see the counterexample. -/
theorem quantity_price_grid :
    (∀ f symbol side otype (q : ℚ) price tif sp ro cp psd (a : ℤ),
      (otype = "MARKET" ∨ otype = "LIMIT" ∨ otype = "STOP_LIMIT") →
      f.minQty = (a : ℚ) * f.stepSize → 0 < f.stepSize → ¬ q = 0 →
      plookup (build_params f symbol side otype (some q) price tif sp ro cp psd)
          "quantity" = some (Value.num (quantize f.minQty f.stepSize q)) ∧
      (∃ j : ℤ, quantize f.minQty f.stepSize q = (j : ℚ) * f.stepSize) ∧
      f.minQty ≤ quantize f.minQty f.stepSize q) ∧
    (∀ f symbol side otype quantity (p : ℚ) tif sp ro cp psd (b : ℤ),
      (otype = "LIMIT" ∨ otype = "STOP_LIMIT") →
      f.minPrice = (b : ℚ) * f.tickSize → 0 < f.tickSize → ¬ p = 0 →
      plookup (build_params f symbol side otype quantity (some p) tif sp ro cp psd)
          "price" = some (Value.num (quantize f.minPrice f.tickSize p)) ∧
      (∃ j : ℤ, quantize f.minPrice f.tickSize p = (j : ℚ) * f.tickSize) ∧
      f.minPrice ≤ quantize f.minPrice f.tickSize p) := by
  constructor
  · intro f symbol side otype q price tif sp ro cp psd a ht hm hs hq0
    have hadj : adjust f.minQty f.stepSize (some q) =
        some (quantize f.minQty f.stepSize q) := by
      simp [adjust, hq0]
    have hcommon := build_params_common f symbol side otype (some q) price tif
      sp ro cp psd ht
    have hlook := hcommon.2.2.2.2.1
    rw [hadj] at hlook
    exact ⟨hlook, quantize_grid f.minQty f.stepSize q a hm hs⟩
  · intro f symbol side otype quantity p tif sp ro cp psd b ht hm hs hp0
    have hadj : adjust f.minPrice f.tickSize (some p) =
        some (quantize f.minPrice f.tickSize p) := by
      simp [adjust, hp0]
    have hgrid := quantize_grid f.minPrice f.tickSize p b hm hs
    rcases ht with rfl | rfl
    · have hlook := (build_params_limit f symbol side quantity (some p) tif
        sp ro cp psd).2.1
      rw [hadj] at hlook
      exact ⟨hlook, hgrid⟩
    · have hlook := (build_params_stop f symbol side quantity (some p) tif
        sp ro cp psd).2.1
      rw [hadj] at hlook
      exact ⟨hlook, hgrid⟩

theorem quantity_price_grid_witness :
    plookup (build_params defaultFilter "BTCUSDT" "BUY" "MARKET" (some (43 / 10000))
        none "GTC" none false false none) "quantity" =
      some (Value.num (quantize defaultFilter.minQty defaultFilter.stepSize (43 / 10000))) ∧
    defaultFilter.minQty ≤ quantize defaultFilter.minQty defaultFilter.stepSize (43 / 10000) :=
  ⟨(quantity_price_grid.1 defaultFilter "BTCUSDT" "BUY" "MARKET" (43 / 10000)
      none "GTC" none false false none 1
      (Or.inl rfl) (by norm_num [defaultFilter]) (by norm_num [defaultFilter])
      (by norm_num)).1,
   (quantity_price_grid.1 defaultFilter "BTCUSDT" "BUY" "MARKET" (43 / 10000)
      none "GTC" none false false none 1
      (Or.inl rfl) (by norm_num [defaultFilter]) (by norm_num [defaultFilter])
      (by norm_num)).2.2⟩

/-- C7 counterexample: a validated MARKET order with `quantity=0.0` (falsy in
Python, hence never quantized) is dispatched with `quantity=0` in the final
parameter set, which is below the default filter's minimum quantity 0.001. -/
theorem quantity_price_grid_cex :
    (place_order none "BTCUSDT" "BUY" "MARKET" (some 0) none "GTC" none
        false false none).1 =
      BotResult.dispatched
        [("symbol", Value.str "BTCUSDT"), ("side", Value.str "BUY"),
         ("quantity", Value.num 0), ("reduceOnly", Value.str "false"),
         ("closePosition", Value.str "false"), ("type", Value.str "MARKET")] ∧
    plookup
        [("symbol", Value.str "BTCUSDT"), ("side", Value.str "BUY"),
         ("quantity", Value.num 0), ("reduceOnly", Value.str "false"),
         ("closePosition", Value.str "false"), ("type", Value.str "MARKET")]
        "quantity" = some (Value.num 0) ∧
    ¬ defaultFilter.minQty ≤ 0 := by
  refine ⟨?_, rfl, by norm_num [defaultFilter]⟩
  rfl
